import Mathlib

/-!
Formal model of the lyrics-synchronization core of the music-companion
integration (source files: custom_components/music_companion/media_tracker.py
and custom_components/music_companion/lyrics.py), together with theorems
about its behavior.

Modeling conventions:
* Wall-clock instants and all second-valued quantities are rationals
  (seconds since an arbitrary epoch); source datetimes become rationals and
  datetime subtraction becomes rational subtraction.  The source branches
  that re-parse ISO timestamp strings are therefore not reachable in the
  model and are omitted.
* Python floats are modeled as exact rationals.
* Home Assistant entity states are modeled by the PlayerState structure
  (state string plus the attributes the source reads); a missing entity is
  Option.none.
* Logging, asyncio task bookkeeping, and the Home Assistant service calls
  that write the three lyrics text entities are modeled by an explicit
  Display value (previous line, current line, next line) threaded through
  the functions that call update_lyrics_entities in the source.
-/

/-- Python round-half-to-even of a rational to an integer,
as used by the builtin round. -/
def pyRoundHalfEven (q : ℚ) : ℤ :=
  let f := ⌊q⌋
  let r := q - (f : ℚ)
  if r < 1/2 then f
  else if 1/2 < r then f + 1
  else if f % 2 = 0 then f else f + 1

/-- Python round(x, 2): round to two decimal places (half to even). -/
def pyRound2 (q : ℚ) : ℚ := (pyRoundHalfEven (q * 100) : ℚ) / 100

/-- Python int(x) on a float/rational: truncation toward zero. -/
def pyTrunc (q : ℚ) : ℤ := if 0 ≤ q then ⌊q⌋ else ⌈q⌉

/-- Python min of two rationals (returns the first argument on ties). -/
def pyMin (a b : ℚ) : ℚ := if a ≤ b then a else b

/-- The attributes of a Home Assistant media-player state that the source
reads, with the defaults used by attrs.get in media_tracker.py:
strings default to empty, positions to None. -/
structure PlayerState where
  state : String := "idle"
  media_title : String := ""
  media_artist : String := ""
  media_content_id : String := ""
  media_position : Option ℚ := none
  media_position_updated_at : Option ℚ := none
deriving Repr, DecidableEq

/-- State of media_tracker.MediaTracker (the fields assigned in its
constructor, except the asyncio task handles and callback slots, which are
control plumbing outside the state model).  seek_threshold is kept because
the constructor sets it, even though no other line of the source reads it. -/
structure MediaTracker where
  is_radio_source : Bool := false
  current_track : String := ""
  current_artist : String := ""
  media_content_id : String := ""
  state : String := "idle"
  media_position : Option ℚ := none
  position_updated_at : Option ℚ := none
  last_calculated_position : ℚ := 0
  position_update_interval : ℚ := 1/10
  seek_threshold : ℚ := 6
  pause_start_time : Option ℚ := none
  paused_duration : ℚ := 0
deriving Repr, DecidableEq

/-- MediaTracker.update_from_state.  `now` is the current wall-clock
instant (datetime.datetime.now in the source), `player` the state of the
tracked media-player entity (hass.states.get).  Returns the updated
tracker and the boolean the method returns
(track_changed or position_changed). -/
def MediaTracker.update_from_state (now : ℚ) (player : Option PlayerState)
    (t : MediaTracker) : MediaTracker × Bool :=
  match player with
  | none => (t, false)
  | some p =>
    let new_track := p.media_title
    let new_artist := p.media_artist
    let new_media_id := p.media_content_id
    let track_changed : Bool :=
      new_track ≠ t.current_track ∨ new_artist ≠ t.current_artist ∨
        new_media_id ≠ t.media_content_id
    let state_changed : Bool := p.state ≠ t.state
    -- pause / resume handling
    let t1 :=
      if state_changed then
        if p.state = "paused" ∧ t.state = "playing" then
          { t with pause_start_time := some now }
        else if p.state = "playing" ∧ t.state = "paused" then
          match t.pause_start_time with
          | some ps =>
            let pause_duration := now - ps
            let t' := { t with paused_duration := t.paused_duration + pause_duration }
            if ¬t.is_radio_source ∧ t.position_updated_at.isSome then
              { t' with position_updated_at := t'.position_updated_at.map (· + pause_duration) }
            else t'
          | none => t
        else t
      else t
    let position_changed : Bool :=
      match p.media_position, t.media_position with
      | some np, some op => ¬t.is_radio_source ∧ np ≠ op
      | _, _ => false
    let t2 := { t1 with
      state := p.state
      current_track := new_track
      current_artist := new_artist
      media_content_id := new_media_id }
    match p.media_position with
    | some np =>
      if t.is_radio_source then (t2, track_changed ∨ position_changed)
      else
        let old_position := t2.media_position
        let t3 := { t2 with
          media_position := some np
          position_updated_at := p.media_position_updated_at }
        let position_changed' : Bool :=
          position_changed ||
            (match old_position with
             | some op => decide (|np - op| > 2)
             | none => false)
        (t3, track_changed || position_changed')
    | none => (t2, track_changed || position_changed)

/-- MediaTracker.calculate_current_position at wall-clock instant `now`.
The source also caches the result in last_calculated_position, which is
only read back on a timestamp-parse error, unreachable in this model. -/
def MediaTracker.calculate_current_position (now : ℚ) (t : MediaTracker) : ℚ :=
  match t.media_position, t.position_updated_at with
  | some pos, some upd =>
    if t.state ≠ "playing" then pos
    else
      let elapsed_time := now - upd
      let acceleration : ℚ :=
        if t.is_radio_source ∧ elapsed_time > 2 then
          pyMin (21/20) (1 + elapsed_time / 200)
        else 1
      pyRound2 (pos + elapsed_time * acceleration)
  | _, _ => 0

/-- MediaTracker._handle_state_change.  The source reads the live entity
state inside update_from_state; in an event-driven model that live state is
the event's new_state.  Returns the updated tracker and the argument the
discrete change callback is invoked with (none when it is not invoked). -/
def MediaTracker.handle_state_change (now : ℚ)
    (old_state new_state : Option PlayerState) (t : MediaTracker) :
    MediaTracker × Option Bool :=
  match new_state with
  | none => (t, none)
  | some ns =>
    let old_media_id := match old_state with
      | some os => os.media_content_id
      | none => ""
    let new_media_id := ns.media_content_id
    let r := t.update_from_state now new_state
    if r.2 then
      if new_media_id ≠ old_media_id then (r.1, some true)
      else (r.1, some false)
    else (r.1, none)

/-!  Claims about the Position Tracker (media_tracker.py). -/

/-- Claim C10: when the position sample has never been set (media_position
is None or position_updated_at is None), calculate_current_position
returns 0.0 rather than raising or returning a stale value. -/
theorem calculate_current_position_unset_returns_zero
    (t : MediaTracker) (now : ℚ)
    (h : t.media_position = none ∨ t.position_updated_at = none) :
    t.calculate_current_position now = 0 := by
  unfold MediaTracker.calculate_current_position
  rcases h with h | h
  · rw [h]
  · rw [h]; cases t.media_position <;> rfl

/-- Witness for C10 at a freshly constructed tracker. -/
theorem calculate_current_position_unset_returns_zero_witness :
    MediaTracker.calculate_current_position 0 {} = 0 :=
  calculate_current_position_unset_returns_zero {} 0 (Or.inl rfl)

/-- Claim C2 (counterexample): while playing, calculate_current_position
does not return the raw value sample position + elapsed * acceleration:
the source rounds it to two decimal places, so a non-radio playing
tracker with sample position 0 taken at instant 0 evaluated at instant
0.001 returns 0, not 0 + 0.001 * 1. -/
theorem calculate_current_position_round_counterexample :
    MediaTracker.calculate_current_position (1/1000)
        { state := "playing", media_position := some 0, position_updated_at := some 0 } ≠
      0 + ((1:ℚ)/1000 - 0) * 1 := by
  with_unfolding_all decide

/-- Claim C2 (amended): for a tracker with a set sample,
calculate_current_position returns the stationary media_position when the
state is not playing; when playing it returns the sample position plus
elapsed wall-clock time times an acceleration factor, rounded to two
decimal places (round(x, 2) in the source); the acceleration factor is 1
for non-radio sources and, for radio sources, is 1 until 2 seconds of
elapsed time and afterwards grows linearly with elapsed time capped at
1.05. -/
theorem calculate_current_position_formula (t : MediaTracker) (now pos upd : ℚ)
    (hpos : t.media_position = some pos) (hupd : t.position_updated_at = some upd) :
    (t.state ≠ "playing" → t.calculate_current_position now = pos) ∧
    (t.state = "playing" →
      t.calculate_current_position now =
        pyRound2 (pos + (now - upd) *
          (if t.is_radio_source then
            (if now - upd ≤ 2 then 1 else pyMin (21/20) (1 + (now - upd) / 200))
          else 1))) := by
  have hacc : (if t.is_radio_source = true ∧ now - upd > 2
        then pyMin (21/20) (1 + (now - upd)/200) else (1:ℚ))
      = (if t.is_radio_source = true
          then (if now - upd ≤ 2 then (1:ℚ)
                else pyMin (21/20) (1 + (now - upd)/200))
          else 1) := by
    by_cases hr : t.is_radio_source = true
    · by_cases he : now - upd ≤ 2
      · rw [if_neg (fun hc => absurd hc.2 (not_lt.mpr he)), if_pos hr, if_pos he]
      · rw [if_pos ⟨hr, not_le.mp he⟩, if_pos hr, if_neg he]
    · rw [if_neg (fun hc => hr hc.1), if_neg hr]
  constructor
  · intro h
    simp only [MediaTracker.calculate_current_position, hpos, hupd, if_pos h]
  · intro h
    simp only [MediaTracker.calculate_current_position, hpos, hupd, h]
    simp only [ne_eq, not_true_eq_false, not_false_eq_true, if_false, ite_false]
    rw [hacc]

/-- Witness for C2: a radio-source tracker, playing, sample position 10
taken at instant 100, evaluated at instant 105; elapsed 5 s gives
acceleration 1.025 and position round2(10 + 5 * 1.025) = 15.12. -/
theorem calculate_current_position_formula_witness :
    MediaTracker.calculate_current_position 105
      { is_radio_source := true, state := "playing", media_position := some 10,
        position_updated_at := some 100 } =
      pyRound2 (10 + ((105:ℚ) - 100) *
        (if (true : Bool) then
          (if (105:ℚ) - 100 ≤ 2 then 1 else pyMin (21/20) (1 + ((105:ℚ) - 100) / 200))
        else 1)) ∧
    MediaTracker.calculate_current_position 105
      { is_radio_source := true, state := "playing", media_position := some 10,
        position_updated_at := some 100 } = 1512/100 := by
  have h := (calculate_current_position_formula
    { is_radio_source := true, state := "playing", media_position := some 10,
      position_updated_at := some 100 } 105 10 100 rfl rfl).2 rfl
  refine ⟨h, ?_⟩
  rw [h]
  norm_num [pyRound2, pyRoundHalfEven, pyMin, Int.fract]

/-- Claim C3: pause/resume accounting.  A non-radio tracker playing with
sample position 30 captured at instant t0 observes a pause at t0 and a
resume at t0 + 5: the reference sample timestamp is shifted forward by
the 5-second pause duration and the position reported right after resume
is exactly 30 (not 35).  For a radio source the timestamp is left
unshifted by the same event sequence. -/
theorem pause_resume_accounting (t0 : ℚ) :
    let tr : MediaTracker :=
      { state := "playing", media_position := some 30, position_updated_at := some t0 }
    let trR : MediaTracker :=
      { state := "playing", media_position := some 30, position_updated_at := some t0,
        is_radio_source := true }
    let s2 := ((tr.update_from_state t0 (some { state := "paused" })).1.update_from_state
        (t0 + 5) (some { state := "playing" })).1
    let r2 := ((trR.update_from_state t0 (some { state := "paused" })).1.update_from_state
        (t0 + 5) (some { state := "playing" })).1
    s2.position_updated_at = some (t0 + 5) ∧
    s2.calculate_current_position (t0 + 5) = 30 ∧
    r2.position_updated_at = some t0 := by
  simp [MediaTracker.update_from_state, MediaTracker.calculate_current_position,
    pyRound2, pyRoundHalfEven, pyMin]
  norm_num [Int.fract]

/-- Claim C1 (failing input): the tracker observes an update whose title
differs from the previous sample (Song A to Song B) while artist and
media_content_id are unchanged; the discrete change callback is invoked
with flag false (seek), not true, because _handle_state_change only tests
whether media_content_id changed.  With a media_content_id change the
callback receives true. -/
theorem handle_state_change_title_only_gives_seek_flag :
    (MediaTracker.handle_state_change 0
      (some { state := "playing", media_title := "Song A", media_artist := "X",
              media_content_id := "M" })
      (some { state := "playing", media_title := "Song B", media_artist := "X",
              media_content_id := "M" })
      { current_track := "Song A", current_artist := "X", media_content_id := "M",
        state := "playing" }).2 = some false ∧
    (MediaTracker.handle_state_change 0
      (some { state := "playing", media_title := "Song A", media_artist := "X",
              media_content_id := "M" })
      (some { state := "playing", media_title := "Song B", media_artist := "X",
              media_content_id := "M2" })
      { current_track := "Song A", current_artist := "X", media_content_id := "M",
        state := "playing" }).2 = some true := by
  constructor <;> rfl

/-!  The Lyrics Parser (lyrics.py, lyricSplit).  Strings are processed as
lists of characters.  The Python library behaviors the source relies on
are modeled as follows: str.splitlines is modeled for newline-separated
text (the claims only involve the \n separator); int() and float() accept
an optional sign followed by decimal digits (float also a fractional
part) after stripping surrounding whitespace, without the underscore,
exponent, infinity and NaN forms that no lyric timestamp uses; str.strip
removes ASCII whitespace. -/

/-- ASCII whitespace characters stripped by str.strip. -/
def pyIsSpace (c : Char) : Bool :=
  c = ' ' ∨ c = '\t' ∧ True ∨ c = '\n' ∨ c = '\r' ∨ c = '\x0b' ∨ c = '\x0c'

/-- Python str.strip: drop whitespace from both ends. -/
def pyStrip (l : List Char) : List Char :=
  ((l.dropWhile pyIsSpace).reverse.dropWhile pyIsSpace).reverse

/-- str.split(sep) for a one-character separator. -/
def splitOnChar (sep : Char) : List Char → List (List Char)
  | [] => [[]]
  | c :: cs =>
    let r := splitOnChar sep cs
    if c = sep then [] :: r
    else
      match r with
      | x :: xs => (c :: x) :: xs
      | [] => [[c]]

/-- str.splitlines for newline-separated text: like splitting on the
newline character, except that a trailing newline produces no final
empty line. -/
def pySplitlines (l : List Char) : List (List Char) :=
  let r := splitOnChar '\n' l
  if r.getLast? = some [] then r.dropLast else r

/-- Digits of a nonempty all-digit string as a natural number. -/
def digitsToNat : List Char → Option ℕ
  | [] => none
  | l =>
    if l.all (fun c => c.isDigit) then
      some (l.foldl (fun acc c => acc * 10 + (c.toNat - '0'.toNat)) 0)
    else none

/-- Python int(str): optional sign then decimal digits. -/
def pyParseInt (l : List Char) : Option ℤ :=
  match pyStrip l with
  | '+' :: r => (digitsToNat r).map Int.ofNat
  | '-' :: r => (digitsToNat r).map (fun n => -(n : ℤ))
  | r => (digitsToNat r).map Int.ofNat

/-- Decimal form D, D., .D or D.D (D nonempty digit strings) as a
rational. -/
def parseDecimal (l : List Char) : Option ℚ :=
  let intPart := l.takeWhile (fun c => c.isDigit)
  let rest := l.dropWhile (fun c => c.isDigit)
  match rest with
  | [] =>
    match digitsToNat intPart with
    | some n => some (n : ℚ)
    | none => none
  | '.' :: frac =>
    if frac.all (fun c => c.isDigit) ∧ (intPart ≠ [] ∨ frac ≠ []) then
      some ((intPart.foldl (fun acc c => acc * 10 + (c.toNat - '0'.toNat)) 0 : ℕ) +
        (frac.foldl (fun acc c => acc * 10 + (c.toNat - '0'.toNat)) 0 : ℕ) /
          (10 : ℚ) ^ frac.length)
    else none
  | _ => none

/-- Python float(str) restricted to plain decimal forms:
optional sign then a decimal number. -/
def pyParseFloat (l : List Char) : Option ℚ :=
  match pyStrip l with
  | '+' :: r => parseDecimal r
  | '-' :: r => (parseDecimal r).map Neg.neg
  | r => parseDecimal r

/-- Split a character list at its first right bracket: returns the
characters before it and the characters after it. -/
def takeUntilRBracket : List Char → Option (List Char × List Char)
  | [] => none
  | c :: cs =>
    if c = ']' then some ([], cs)
    else (takeUntilRBracket cs).map (fun p => (c :: p.1, p.2))

/-- re.match of the non-greedy bracket pattern used by lyricSplit against
the start of a line: a left bracket, at least one character, then the
first right bracket.  Returns the matched inner text and the characters
after the match. -/
def matchStamp : List Char → Option (List Char × List Char)
  | c :: c2 :: cs =>
    if c = '[' then (takeUntilRBracket cs).map (fun p => (c2 :: p.1, p.2)) else none
  | _ => none

/-- Length bound needed for termination of the global substitution. -/
theorem takeUntilRBracket_length {cs a b : List Char}
    (h : takeUntilRBracket cs = some (a, b)) : b.length < cs.length := by
  induction cs generalizing a b with
  | nil => simp [takeUntilRBracket] at h
  | cons c cs ih =>
    rw [takeUntilRBracket] at h
    by_cases hc : c = ']'
    · rw [if_pos hc, Option.some.injEq, Prod.mk.injEq] at h
      rw [← h.2]
      exact Nat.lt_succ_self _
    · rw [if_neg hc] at h
      cases h3 : takeUntilRBracket cs with
      | none => rw [h3] at h; exact absurd h (by simp)
      | some p =>
        rw [h3] at h
        simp only [Option.map_some', Option.some.injEq, Prod.mk.injEq] at h
        rw [← h.2]
        exact Nat.lt_succ_of_lt (ih (by rw [h3]))

/-- Length bound for a successful leading bracket match. -/
theorem matchStamp_length {l : List Char} {p : List Char × List Char}
    (h : matchStamp l = some p) : p.2.length < l.length := by
  match l with
  | [] => simp [matchStamp] at h
  | [c] => simp [matchStamp] at h
  | c :: c2 :: cs =>
    rw [matchStamp] at h
    by_cases hc : c = '['
    · rw [if_pos hc] at h
      cases h3 : takeUntilRBracket cs with
      | none => rw [h3] at h; exact absurd h (by simp)
      | some q =>
        rw [h3] at h
        simp only [Option.map_some', Option.some.injEq] at h
        have hq : q.2.length < cs.length :=
          takeUntilRBracket_length (show takeUntilRBracket cs = some (q.1, q.2) by rw [h3])
        rw [← h]
        simp only [List.length_cons]
        omega
    · rw [if_neg hc] at h; exact absurd h (by simp)

/-- regex.sub of the non-greedy bracket pattern with the empty string:
remove every non-overlapping minimal bracketed group, scanning left to
right. -/
def subStamps : List Char → List Char
  | [] => []
  | c :: cs =>
    if c = '[' then
      match h2 : matchStamp (c :: cs) with
      | some p => subStamps p.2
      | none => c :: subStamps cs
    else c :: subStamps cs
termination_by l => l.length
decreasing_by
  · exact matchStamp_length h2
  · simp only [List.length_cons]; omega
  · simp only [List.length_cons]; omega

/-- The startswith test of lyricSplit: candidate lyric lines begin with a
left bracket followed by the digit 0, 1, 2 or 3. -/
def startsCand : List Char → Bool
  | '[' :: c :: _ => c = '0' ∨ c = '1' ∨ c = '2' ∨ c = '3'
  | _ => false

/-- Timestamp-to-milliseconds conversion of lyricSplit: split the inner
text on a colon, parse minutes with int() and seconds with float(), and
truncate (minutes * 60 + seconds) * 1000 to an integer.  Any parse
failure (including a missing seconds part) is a skipped line. -/
def convertStamp (t : List Char) : Option ℤ :=
  match splitOnChar ':' t with
  | m :: s :: _ =>
    match pyParseInt m with
    | some mi =>
      match pyParseFloat s with
      | some sv => some (pyTrunc ((mi * 60 + sv) * 1000))
      | none => none
    | none => none
  | _ => none

/-- Processing of one input line by lyricSplit: none when the line is
skipped, otherwise the (milliseconds, text) pair appended to the
timeline. -/
def processLine (l : List Char) : Option (ℤ × List Char) :=
  if startsCand l then
    match matchStamp l with
    | none => none
    | some p =>
      let text := pyStrip (subStamps l)
      if text = [] then none
      else
        match convertStamp p.1 with
        | some ms => some (ms, text)
        | none => none
  else none

/-- lyricSplit over an already-split list of input lines. -/
def lyricSplitLines (lines : List (List Char)) : List (ℤ × List Char) :=
  lines.filterMap processLine

/-- lyrics.lyricSplit: split raw lyrics text into a parallel timeline
(milliseconds) and list of lyric lines. -/
def lyricSplit (s : String) : List ℤ × List String :=
  let ps := lyricSplitLines (pySplitlines s.toList)
  (ps.map Prod.fst, ps.map (fun pr => String.mk pr.2))

/-!  Claims about the Lyrics Parser. -/

/-- A successfully parsed line always carries nonempty text: lines that
are empty after the bracketed timestamp is stripped are skipped. -/
theorem processLine_text_ne_nil {l : List Char} {pr : ℤ × List Char}
    (h : processLine l = some pr) : pr.2 ≠ [] := by
  simp only [processLine] at h
  split at h
  · split at h
    next => exact absurd h (by simp)
    next p =>
      split at h
      next => exact absurd h (by simp)
      next hne =>
        split at h
        next ms hms =>
          rw [Option.some.injEq] at h
          rw [← h]
          exact hne
        next => exact absurd h (by simp)
  · exact absurd h (by simp)

/-- Claim C4: lyricSplit returns a timeline and a lines list of equal
length; candidate lines whose remaining text is empty after stripping the
bracketed timestamp are excluded; entries appear in input line order
without re-sorting, so the non-monotonic example keeps offsets
[10000, 5000]; and when the per-line offsets of the input are
non-decreasing in input order, so is the returned timeline. -/
theorem lyricSplit_shape_and_order :
    (∀ s : String, (lyricSplit s).1.length = (lyricSplit s).2.length) ∧
    (∀ s : String, ∀ t ∈ (lyricSplit s).2, t ≠ "") ∧
    lyricSplit "[00:10.00]Hello\n[00:05.00]World" = ([10000, 5000], ["Hello", "World"]) ∧
    (∀ s : String,
      List.Sorted (· ≤ ·)
        (List.filterMap (fun l => (processLine l).map Prod.fst) (pySplitlines s.toList)) →
      List.Sorted (· ≤ ·) (lyricSplit s).1) := by
  refine ⟨?_, ?_, ?_, ?_⟩
  · intro s
    simp [lyricSplit, List.length_map]
  · intro s t ht hcontra
    simp only [lyricSplit, lyricSplitLines, List.mem_map] at ht
    obtain ⟨pr, hpr, rfl⟩ := ht
    obtain ⟨line, -, hline⟩ := List.mem_filterMap.mp hpr
    exact processLine_text_ne_nil hline (congrArg String.data hcontra)
  · with_unfolding_all decide
  · intro s hs
    simpa [lyricSplit, lyricSplitLines, List.map_filterMap] using hs

/-- Witness for C4 on concrete inputs. -/
theorem lyricSplit_shape_and_order_witness :
    (lyricSplit "[00:10.00]Hello\n[00:05.00]World").1.length =
      (lyricSplit "[00:10.00]Hello\n[00:05.00]World").2.length ∧
    ("Hello" : String) ≠ "" ∧
    List.Sorted (· ≤ ·) (lyricSplit "[00:05.00]A\n[00:10.00]B").1 := by
  refine ⟨lyricSplit_shape_and_order.1 _, ?_, ?_⟩
  · exact lyricSplit_shape_and_order.2.1 "[00:10.00]Hello\n[00:05.00]World" "Hello"
      (by with_unfolding_all decide)
  · exact lyricSplit_shape_and_order.2.2.2 "[00:05.00]A\n[00:10.00]B"
      (by with_unfolding_all decide)

/-- Claim C5 (counterexample): the parser truncates rather than rounds.
For the line [00:01.2346]X (minutes 0, seconds 1.2346) the source yields
int(1234.6) = 1234 while the claimed formula round, applied to
(0 * 60 + 1.2346) * 1000, yields 1235. -/
theorem lyricSplit_round_counterexample :
    (lyricSplit "[00:01.2346]X").1 = [1234] ∧
    round (((0:ℚ) * 60 + 12346/10000) * 1000) ≠ 1234 := by
  constructor
  · with_unfolding_all decide
  · norm_num [round_eq]

/-- Claim C5 (amended): for every line with a parseable minutes:seconds
timestamp the parser converts it to milliseconds by truncation,
ms = int((minutes * 60 + seconds) * 1000); a line whose timestamp is
malformed is skipped rather than raising or aborting the parse. -/
theorem lyricSplit_truncation_and_skip :
    (∀ inner mStr sStr : List Char, ∀ rest : List (List Char), ∀ m : ℤ, ∀ sec : ℚ,
      splitOnChar ':' inner = mStr :: sStr :: rest →
      pyParseInt mStr = some m → pyParseFloat sStr = some sec →
      convertStamp inner = some (pyTrunc ((m * 60 + sec) * 1000))) ∧
    (∀ inner : List Char, ∀ ms : ℤ, convertStamp inner = some ms →
      ∃ mStr sStr rest m sec,
        splitOnChar ':' inner = mStr :: sStr :: rest ∧
        pyParseInt mStr = some m ∧ pyParseFloat sStr = some sec ∧
        ms = pyTrunc ((m * 60 + sec) * 1000)) ∧
    (∀ lines1 lines2 : List (List Char), ∀ bad : List Char,
      processLine bad = none →
      lyricSplitLines (lines1 ++ bad :: lines2) = lyricSplitLines (lines1 ++ lines2)) ∧
    lyricSplit "[00:10.00]Hello\n[0x:99]Oops\n[00:20.00]Bye" = ([10000, 20000], ["Hello", "Bye"]) := by
  refine ⟨?_, ?_, ?_, ?_⟩
  · intro inner mStr sStr rest m sec hsplit hm hs
    simp only [convertStamp, hsplit, hm, hs]
  · intro inner ms h
    simp only [convertStamp] at h
    split at h
    next mStr sStr rest hsplit =>
      split at h
      next m hm =>
        split at h
        next sec hs =>
          rw [Option.some.injEq] at h
          exact ⟨mStr, sStr, rest, m, sec, hsplit, hm, hs, h.symm⟩
        next => exact absurd h (by simp)
      next => exact absurd h (by simp)
    next => exact absurd h (by simp)
  · intro lines1 lines2 bad hbad
    simp [lyricSplitLines, List.filterMap_append, List.filterMap_cons_none, hbad]
  · with_unfolding_all decide

/-- Witness for C5 (amended) on a concrete timestamp and a concrete
malformed line. -/
theorem lyricSplit_truncation_and_skip_witness :
    convertStamp ("00:10.00".toList) = some (pyTrunc ((0 * 60 + 10) * 1000)) ∧
    lyricSplitLines ([] ++ "[0x:99]Oops".toList :: []) = lyricSplitLines ([] ++ []) := by
  constructor
  · exact lyricSplit_truncation_and_skip.1 _ "00".toList "10.00".toList [] 0 10
      (by with_unfolding_all decide) (by with_unfolding_all decide)
      (by with_unfolding_all decide)
  · exact lyricSplit_truncation_and_skip.2.2.1 [] [] _ (by with_unfolding_all decide)

/-!  The Lyrics Synchronizer (lyrics.py, class LyricsSynchronizer). -/

/-- The three lyrics text entities of a device (previous line, current
line, next line), the target of update_lyrics_entities. -/
abbrev Display := String × String × String

/-- State of lyrics.LyricsSynchronizer (the fields assigned in its
constructor, except the hass handle, entry id, and the watchdog timing
fields last_update_time / force_update_interval, which only drive task
scheduling). -/
structure LyricsSynchronizer where
  entity_id : String := ""
  current_track : String := ""
  current_artist : String := ""
  timeline : List ℤ := []
  lyrics : List String := []
  current_line_index : ℤ := -1
  active : Bool := false
  media_tracker : Option MediaTracker := none
deriving Repr, DecidableEq

/-- The display triple written for line index j (0-based; the source
loop variable is i = j + 1): previous line lyrics[i-2] when i > 1,
current line lyrics[i-1], next line lyrics[i] when i < len(lyrics),
empty string otherwise.  The source indexes lyrics directly under the
parser invariant len(lyrics) = len(timeline); out-of-range reads are
modeled with the empty-string default. -/
def displayAt (lyrics : List String) (j : ℕ) : Display :=
  ((if 1 ≤ j then lyrics.getD (j-1) "" else ""),
   lyrics.getD j "",
   (if j + 1 < lyrics.length then lyrics.getD (j+1) "" else ""))

/-- The containment scan shared by update_lyrics_position,
_sync_to_position and handle_track_change: the first index i in
[1, len) with timeline[i-1] <= position_ms < timeline[i], returned as
the 0-based line index i-1. -/
def findLineIdx (timeline : List ℤ) (position_ms : ℚ) : Option ℕ :=
  match timeline with
  | a :: b :: rest =>
    if (a : ℚ) ≤ position_ms ∧ position_ms < (b : ℚ) then some 0
    else (findLineIdx (b :: rest) position_ms).map (· + 1)
  | _ => none

/-- The radio-source lookahead scan of _sync_to_position: the first index
i in [1, len) with position_ms < timeline[i-1] < position_ms + 10000,
returned as the 0-based line index i-1. -/
def findUpcomingIdx (timeline : List ℤ) (position_ms : ℚ) : Option ℕ :=
  match timeline with
  | a :: b :: rest =>
    if position_ms < (a : ℚ) ∧ (a : ℚ) < position_ms + 10000 then some 0
    else (findUpcomingIdx (b :: rest) position_ms).map (· + 1)
  | _ => none

/-- LyricsSynchronizer.stop: no-op when already inactive; otherwise mark
inactive, stop and drop the media tracker, and clear the display. -/
def LyricsSynchronizer.stop (sd : LyricsSynchronizer × Display) :
    LyricsSynchronizer × Display :=
  if ¬sd.1.active then sd
  else ({ sd.1 with active := false, media_tracker := none }, ("", "", ""))

/-- LyricsSynchronizer.update_lyrics_position, the continuous position
callback (media_timecode in seconds).  The stop the source schedules with
asyncio.create_task is applied immediately (single-threaded event loop). -/
def LyricsSynchronizer.update_lyrics_position (media_timecode : ℚ)
    (sd : LyricsSynchronizer × Display) : LyricsSynchronizer × Display :=
  let s := sd.1
  if ¬s.active ∨ s.timeline = [] ∨ s.lyrics = [] then sd
  else
    let position_ms := media_timecode * 1000
    if ((s.timeline.getLastD 0 : ℤ) : ℚ) ≤ position_ms then
      LyricsSynchronizer.stop sd
    else
      match findLineIdx s.timeline position_ms with
      | some j =>
        if (j : ℤ) ≠ s.current_line_index then
          ({ s with current_line_index := (j : ℤ) }, displayAt s.lyrics j)
        else sd
      | none =>
        if position_ms < ((s.timeline.headD 0 : ℤ) : ℚ) ∧ s.current_line_index ≠ -1 then
          ({ s with current_line_index := -1 }, sd.2)
        else sd

/-- LyricsSynchronizer._sync_to_position: resolve the starting line for a
position (milliseconds) and render it; radio sources first try the
lookahead window, and when no line matches the first one or two lines
are shown. -/
def LyricsSynchronizer.sync_to_position (position_ms : ℚ)
    (sd : LyricsSynchronizer × Display) : LyricsSynchronizer × Display :=
  let s := sd.1
  let fallback :=
    if s.lyrics.length > 0 then
      if s.lyrics.length > 1 then
        (s, (("" : String), s.lyrics.getD 0 "", s.lyrics.getD 1 ""))
      else
        (s, (("" : String), s.lyrics.getD 0 "", ("" : String)))
    else sd
  if s.timeline ≠ [] then
    let is_radio := match s.media_tracker with
      | some tr => tr.is_radio_source
      | none => false
    let r1 := if is_radio then findUpcomingIdx s.timeline position_ms else none
    match r1 with
    | some j => ({ s with current_line_index := (j : ℤ) }, displayAt s.lyrics j)
    | none =>
      match findLineIdx s.timeline position_ms with
      | some j => ({ s with current_line_index := (j : ℤ) }, displayAt s.lyrics j)
      | none => fallback
  else fallback

/-- LyricsSynchronizer.start: stop any active session, install the new
timeline and lyrics, create a fresh MediaTracker (is_radio_source is the
caller's audiofingerprint flag), resolve the initial display from the
supplied position when there is one, run the tracker's initial
update_from_state (start_tracking) and mark the session active. -/
def LyricsSynchronizer.start (now : ℚ) (player : Option PlayerState)
    (entity_id : String) (timeline : List ℤ) (lyrics : List String)
    (pos updated_at : Option ℚ) (is_radio_source : Bool)
    (sd : LyricsSynchronizer × Display) : LyricsSynchronizer × Display :=
  let sd1 := if sd.1.active then LyricsSynchronizer.stop sd else sd
  let s0 := sd1.1
  let ct := match player with
    | some p => p.media_title
    | none => s0.current_track
  let ca := match player with
    | some p => p.media_artist
    | none => s0.current_artist
  let s1 := { s0 with
    entity_id := entity_id
    timeline := timeline
    lyrics := lyrics
    current_line_index := -1
    current_track := ct
    current_artist := ca }
  let tr0 : MediaTracker := { is_radio_source := is_radio_source }
  match pos, updated_at with
  | some p0, some u0 =>
    let tr1 := { tr0 with
      media_position := some p0
      position_updated_at := some u0
      paused_duration := 0 }
    let s2 := { s1 with media_tracker := some tr1 }
    let sd2 := LyricsSynchronizer.sync_to_position (p0 * 1000) (s2, sd1.2)
    ({ sd2.1 with
        media_tracker := sd2.1.media_tracker.map (fun tr => (tr.update_from_state now player).1)
        active := true },
      sd2.2)
  | _, _ =>
    let d1 : Display :=
      if lyrics.length > 1 then ("", lyrics.getD 0 "", lyrics.getD 1 "")
      else if lyrics.length > 0 then ("", lyrics.getD 0 "", "")
      else sd1.2
    let s2 := { s1 with media_tracker := some tr0 }
    ({ s2 with
        media_tracker := s2.media_tracker.map (fun tr => (tr.update_from_state now player).1)
        active := true },
      d1)

/-- getLastD is getD at the last index. -/
theorem getLastD_eq_getD (l : List ℤ) : ∀ d, l.getLastD d = l.getD (l.length - 1) d := by
  induction l with
  | nil => intro d; rfl
  | cons x xs ih =>
    intro d
    cases xs with
    | nil => rfl
    | cons y ys =>
      rw [List.getLastD_cons, ih x]
      show (y :: ys).getD ((y :: ys).length - 1) x = (x :: y :: ys).getD ((x :: y :: ys).length - 1) d
      have h1 : (x :: y :: ys).length - 1 = ((y :: ys).length - 1) + 1 := by
        simp [List.length_cons]
      rw [h1, List.getD_cons_succ]
      have hb : (y :: ys).length - 1 < (y :: ys).length := by simp
      rw [List.getD_eq_getElem _ x hb, List.getD_eq_getElem _ d hb]

/-- getD is monotone along a sorted list. -/
theorem sorted_getD_mono {l : List ℤ} (hs : l.Sorted (· ≤ ·)) {j k : ℕ} (hjk : j ≤ k)
    (hk : k < l.length) (d : ℤ) : l.getD j d ≤ l.getD k d := by
  rw [List.getD_eq_getElem l d (lt_of_le_of_lt hjk hk), List.getD_eq_getElem l d hk]
  rcases eq_or_lt_of_le hjk with rfl | hlt
  · exact le_refl _
  · have := hs.rel_get_of_lt (a := ⟨j, lt_of_le_of_lt hjk hk⟩) (b := ⟨k, hk⟩) hlt
    simpa [List.get_eq_getElem] using this

/-- On a sorted timeline the first-match scan returns exactly the index
whose half-open interval contains the position. -/
theorem findLineIdx_of_sorted {timeline : List ℤ} {position_ms : ℚ} {i : ℕ}
    (hs : timeline.Sorted (· ≤ ·)) (hlen : i + 1 < timeline.length)
    (h1 : ((timeline.getD i 0 : ℤ) : ℚ) ≤ position_ms)
    (h2 : position_ms < ((timeline.getD (i+1) 0 : ℤ) : ℚ)) :
    findLineIdx timeline position_ms = some i := by
  induction timeline generalizing i with
  | nil => simp at hlen
  | cons a tl ih =>
    cases tl with
    | nil => simp at hlen
    | cons b rest =>
      cases i with
      | zero =>
        simp only [List.getD_cons_zero] at h1
        simp only [List.getD_cons_succ, List.getD_cons_zero] at h2
        rw [findLineIdx, if_pos ⟨h1, h2⟩]
      | succ i' =>
        have hlen' : i' + 1 < (b :: rest).length := by
          simpa [List.length_cons] using hlen
        have h1' : (((b :: rest).getD i' 0 : ℤ) : ℚ) ≤ position_ms := by
          simpa [List.getD_cons_succ] using h1
        have h2' : position_ms < (((b :: rest).getD (i'+1) 0 : ℤ) : ℚ) := by
          simpa [List.getD_cons_succ] using h2
        have hble : (b : ℚ) ≤ position_ms := by
          have hmono : (b :: rest).getD 0 0 ≤ (b :: rest).getD i' 0 :=
            sorted_getD_mono (List.sorted_cons.mp hs).2 (Nat.zero_le _)
              (Nat.lt_of_succ_lt hlen') 0
          simp only [List.getD_cons_zero] at hmono
          exact le_trans (by exact_mod_cast hmono) h1'
        rw [findLineIdx, if_neg (fun hc => absurd hble (not_le.mpr hc.2))]
        rw [ih (List.sorted_cons.mp hs).2 hlen' h1' h2']
        rfl

/-- Claim C6: position-to-line lookup.  For an active session with a
sorted timeline, a position falling in the half-open interval
[timeline[i-1], timeline[i]) (stated with the 0-based index i of the
model) resolves to line lyrics[i-1] with lyrics[i-2] as previous and
lyrics[i] as next context, empty strings out of bounds; in particular
timeline [0, 5000, 10000] with lines [A, B, C] at 7000 ms renders
previous A, current B, next C. -/
theorem position_to_line_lookup :
    (∀ (s : LyricsSynchronizer) (d : Display) (tc : ℚ) (i : ℕ),
      s.active = true →
      List.Sorted (· ≤ ·) s.timeline →
      s.lyrics ≠ [] →
      i + 1 < s.timeline.length →
      ((s.timeline.getD i 0 : ℤ) : ℚ) ≤ tc * 1000 →
      tc * 1000 < ((s.timeline.getD (i+1) 0 : ℤ) : ℚ) →
      (i : ℤ) ≠ s.current_line_index →
      LyricsSynchronizer.update_lyrics_position tc (s, d) =
        ({ s with current_line_index := (i : ℤ) }, displayAt s.lyrics i)) ∧
    (LyricsSynchronizer.update_lyrics_position 7
      ({ active := true, timeline := [0, 5000, 10000], lyrics := ["A", "B", "C"] },
        ("", "", ""))) =
      ({ active := true, timeline := [0, 5000, 10000], lyrics := ["A", "B", "C"],
         current_line_index := 1 }, ("A", "B", "C")) := by
  have hgen : ∀ (s : LyricsSynchronizer) (d : Display) (tc : ℚ) (i : ℕ),
      s.active = true →
      List.Sorted (· ≤ ·) s.timeline →
      s.lyrics ≠ [] →
      i + 1 < s.timeline.length →
      ((s.timeline.getD i 0 : ℤ) : ℚ) ≤ tc * 1000 →
      tc * 1000 < ((s.timeline.getD (i+1) 0 : ℤ) : ℚ) →
      (i : ℤ) ≠ s.current_line_index →
      LyricsSynchronizer.update_lyrics_position tc (s, d) =
        ({ s with current_line_index := (i : ℤ) }, displayAt s.lyrics i) := by
    intro s d tc i hact hsort hly hlen hle hlt hne
    have htl : s.timeline ≠ [] := by
      intro hc; rw [hc] at hlen; simp at hlen
    have hlast : tc * 1000 < ((s.timeline.getLastD 0 : ℤ) : ℚ) := by
      have hm : s.timeline.getD (i+1) 0 ≤ s.timeline.getD (s.timeline.length - 1) 0 :=
        sorted_getD_mono hsort (by omega) (by omega) 0
      rw [getLastD_eq_getD]
      calc tc * 1000 < ((s.timeline.getD (i+1) 0 : ℤ) : ℚ) := hlt
        _ ≤ ((s.timeline.getD (s.timeline.length - 1) 0 : ℤ) : ℚ) := by exact_mod_cast hm
    simp only [LyricsSynchronizer.update_lyrics_position]
    rw [if_neg (by
      intro hc
      rcases hc with hc | hc | hc
      · exact hc hact
      · exact htl hc
      · exact hly hc)]
    rw [if_neg (not_le.mpr hlast)]
    rw [findLineIdx_of_sorted hsort hlen hle hlt]
    simp only [Option.map_some']
    rw [if_pos hne]
  refine ⟨hgen, ?_⟩
  exact hgen
      { active := true, timeline := [0, 5000, 10000], lyrics := ["A", "B", "C"] }
      ("", "", "") 7 1 rfl (by decide) (by decide) (by decide)
      (by norm_num [List.getD_cons_succ, List.getD_cons_zero])
      (by norm_num [List.getD_cons_succ, List.getD_cons_zero]) (by decide)

/-- Witness for C6 at the concrete timeline of the claim, starting from
a non-empty display. -/
theorem position_to_line_lookup_witness :
    LyricsSynchronizer.update_lyrics_position 7
      ({ active := true, timeline := [0, 5000, 10000], lyrics := ["A", "B", "C"] },
        ("x", "y", "z")) =
      ({ active := true, timeline := [0, 5000, 10000], lyrics := ["A", "B", "C"],
         current_line_index := 1 }, ("A", "B", "C")) :=
  position_to_line_lookup.1
    { active := true, timeline := [0, 5000, 10000], lyrics := ["A", "B", "C"] }
    ("x", "y", "z") 7 1 rfl (by decide) (by decide) (by decide)
    (by norm_num [List.getD_cons_succ, List.getD_cons_zero])
    (by norm_num [List.getD_cons_succ, List.getD_cons_zero]) (by decide)

/-- Claim C7: when the position reaches or passes the last timeline
offset, update_lyrics_position performs the normal terminal transition:
it stops the session and clears the display. -/
theorem lyrics_finished_stops_and_clears :
    ∀ (s : LyricsSynchronizer) (d : Display) (tc : ℚ),
      s.active = true → s.timeline ≠ [] → s.lyrics ≠ [] →
      ((s.timeline.getLastD 0 : ℤ) : ℚ) ≤ tc * 1000 →
      LyricsSynchronizer.update_lyrics_position tc (s, d) = LyricsSynchronizer.stop (s, d) ∧
      (LyricsSynchronizer.update_lyrics_position tc (s, d)).1.active = false ∧
      (LyricsSynchronizer.update_lyrics_position tc (s, d)).2 = ("", "", "") := by
  intro s d tc hact htl hly hlast
  have heq : LyricsSynchronizer.update_lyrics_position tc (s, d) =
      LyricsSynchronizer.stop (s, d) := by
    simp only [LyricsSynchronizer.update_lyrics_position]
    rw [if_neg (by
      intro hc
      rcases hc with hc | hc | hc
      · exact hc hact
      · exact htl hc
      · exact hly hc)]
    rw [if_pos hlast]
  refine ⟨heq, ?_, ?_⟩ <;> rw [heq] <;> simp [LyricsSynchronizer.stop, hact]

/-- Witness for C7: timeline [0, 1000, 2000] at position 2100 ms
(timecode 2.1 s). -/
theorem lyrics_finished_stops_and_clears_witness :
    LyricsSynchronizer.update_lyrics_position (21/10)
      ({ active := true, timeline := [0, 1000, 2000], lyrics := ["A", "B", "C"] },
        ("a", "b", "c")) =
      LyricsSynchronizer.stop
        ({ active := true, timeline := [0, 1000, 2000], lyrics := ["A", "B", "C"] },
          ("a", "b", "c")) ∧
    (LyricsSynchronizer.update_lyrics_position (21/10)
      ({ active := true, timeline := [0, 1000, 2000], lyrics := ["A", "B", "C"] },
        ("a", "b", "c"))).1.active = false ∧
    (LyricsSynchronizer.update_lyrics_position (21/10)
      ({ active := true, timeline := [0, 1000, 2000], lyrics := ["A", "B", "C"] },
        ("a", "b", "c"))).2 = ("", "", "") :=
  lyrics_finished_stops_and_clears
    { active := true, timeline := [0, 1000, 2000], lyrics := ["A", "B", "C"] }
    ("a", "b", "c") (21/10) rfl (by decide) (by decide)
    (by norm_num [List.getLastD_cons, List.getLastD_nil])

/-- Claim C8: stop is idempotent: a second stop leaves the state of the
first unchanged, and stopping an active session marks it inactive, drops
the tracker and clears the display; no call raises. -/
theorem stop_idempotent :
    ∀ sd : LyricsSynchronizer × Display,
      LyricsSynchronizer.stop (LyricsSynchronizer.stop sd) = LyricsSynchronizer.stop sd ∧
      (sd.1.active = true →
        (LyricsSynchronizer.stop sd).1.active = false ∧
        (LyricsSynchronizer.stop sd).1.media_tracker = none ∧
        (LyricsSynchronizer.stop sd).2 = ("", "", "")) := by
  intro sd
  rcases sd with ⟨s, dp⟩
  by_cases h : s.active <;> simp [LyricsSynchronizer.stop, h]

/-- Witness for C8 on an active session holding a tracker. -/
theorem stop_idempotent_witness :
    LyricsSynchronizer.stop (LyricsSynchronizer.stop
      ({ active := true, media_tracker := some {} }, ("a", "b", "c"))) =
      LyricsSynchronizer.stop ({ active := true, media_tracker := some {} }, ("a", "b", "c")) ∧
    ((LyricsSynchronizer.stop
        ({ active := true, media_tracker := some {} }, ("a", "b", "c"))).1.active = false ∧
     (LyricsSynchronizer.stop
        ({ active := true, media_tracker := some {} }, ("a", "b", "c"))).1.media_tracker = none ∧
     (LyricsSynchronizer.stop
        ({ active := true, media_tracker := some {} }, ("a", "b", "c"))).2 = ("", "", "")) :=
  ⟨(stop_idempotent ({ active := true, media_tracker := some {} }, ("a", "b", "c"))).1,
   (stop_idempotent ({ active := true, media_tracker := some {} }, ("a", "b", "c"))).2 rfl⟩
/-!  The Track Resolution / Fetch Orchestrator (lyrics.py,
fetch_lyrics_for_track). -/

/-- Python substring test (the in operator). -/
def containsSub (sub : List Char) : List Char → Bool
  | [] => sub.isEmpty
  | c :: tl => sub.isPrefixOf (c :: tl) || containsSub sub tl

/-- Python str.replace for a nonempty pattern: replace non-overlapping
occurrences left to right. -/
def replaceSub (pat rep : List Char) : List Char → List Char
  | [] => []
  | c :: cs =>
    if pat ≠ [] ∧ pat.isPrefixOf (c :: cs) then
      rep ++ replaceSub pat rep (cs.drop (pat.length - 1))
    else c :: replaceSub pat rep cs
termination_by l => l.length
decreasing_by
  · simp only [List.length_cons, List.length_drop]
    omega
  · simp only [List.length_cons]
    omega

/-- The multi-artist separators of fetch_lyrics_for_track. -/
def separators : List String :=
  ["/", "|", "&", ",", " and ", " with ", " feat ", " feat. ", " ft ", " ft. ", " featuring "]

/-- The backend query with the individual-artist fallback: try the full
artist string; on a miss, when the artist contains a separator, normalize
every separator to the vertical bar, split, strip, and try each nonempty
candidate until one matches.  `search` models the lrc_kit provider. -/
def searchWithFallback (search : String → String → Option String)
    (artist track : String) : Option String :=
  match search artist track with
  | some r => some r
  | none =>
    if separators.any (fun sep => containsSub sep.toList artist.toList) then
      let normalized := separators.foldl
        (fun acc sep => if containsSub sep.toList acc then replaceSub sep.toList ['|'] acc else acc)
        artist.toList
      let artist_list := ((splitOnChar '|' normalized).map pyStrip).filter (fun a => ¬a.isEmpty)
      artist_list.findSome? (fun a => search (String.mk a) track)
    else none

/-- The radio-stream content-id test of fetch_lyrics_for_track. -/
def hasRadioPfx (s : String) : Bool :=
  "library://radio".toList.isPrefixOf s.toList

/-- The per-device runtime data of lyrics.py (get_device_data) together
with the state of the device's three lyrics text entities. -/
structure DeviceData where
  lyrics_sync : Option LyricsSynchronizer := none
  last_media_content_id : Option String := none
  display : Display := ("", "", "")
deriving Repr, DecidableEq

/-- lyrics.fetch_lyrics_for_track.  Arguments mirror the source; the
global _INTEGRATION_JUST_STARTED flag is threaded as just_started and
returned updated.  `search` is the lyrics backend, `player` the state of
the media-player entity. -/
def fetch_lyrics_for_track (now : ℚ) (player : Option PlayerState)
    (search : String → String → Option String)
    (track artist : String) (pos updated_at : Option ℚ) (entity_id : String)
    (audiofingerprint : Bool) (just_started : Bool) (dev : DeviceData) :
    DeviceData × Bool :=
  let current_media_id := match player with
    | some p => p.media_content_id
    | none => ""
  if hasRadioPfx current_media_id ∧ ¬audiofingerprint then (dev, just_started)
  else
    let dev1 := { dev with display := ("", "Searching for lyrics...", "") }
    let pos2 := if just_started then none else pos
    let upd2 := if just_started then none else updated_at
    let js2 := if just_started then false else just_started
    let current_track := match player with
      | some p => p.media_title
      | none => ""
    let current_artist := match player with
      | some p => p.media_artist
      | none => ""
    let dedup : Bool :=
      !audiofingerprint &&
        (match dev1.lyrics_sync with
         | some sync =>
           sync.active &&
             (match sync.media_tracker with
              | some tr =>
                tr.current_track == current_track && tr.current_artist == current_artist
              | none => false)
         | none => false)
    if dedup then (dev1, js2)
    else
      let dev2 := match dev1.lyrics_sync with
        | some sync =>
          if sync.active then
            let r := LyricsSynchronizer.stop (sync, dev1.display)
            { dev1 with lyrics_sync := some r.1, display := r.2 }
          else dev1
        | none => dev1
      let dev3 := { dev2 with last_media_content_id := some current_media_id }
      match searchWithFallback search artist track with
      | none => ({ dev3 with display := ("", "No lyrics found", "") }, js2)
      | some text =>
        if (lyricSplit text).1 = [] then
          ({ dev3 with display := ("", "Lyrics not synced", "") }, js2)
        else
          let sync0 := dev3.lyrics_sync.getD {}
          let r := LyricsSynchronizer.start now player entity_id
            (lyricSplit text).1 (lyricSplit text).2 pos2 upd2
            audiofingerprint (sync0, dev3.display)
          ({ dev3 with lyrics_sync := some r.1, display := r.2 }, js2)

/-- A started session is active in both branches of start. -/
theorem start_active (now : ℚ) (player : Option PlayerState) (eid : String)
    (tl : List ℤ) (ly : List String) (pos upd : Option ℚ) (radio : Bool)
    (sd : LyricsSynchronizer × Display) :
    (LyricsSynchronizer.start now player eid tl ly pos upd radio sd).1.active = true := by
  rcases pos with _ | p0 <;> rcases upd with _ | u0 <;>
    simp [LyricsSynchronizer.start]

/-- Claim C9: fetch de-duplication.  When a session is already active for
the device and its tracker displays the same (title, artist) pair as the
player state, a non-fingerprint-triggered fetch returns after only
writing the transient searching message to the display, leaving the
active session untouched
and creating no second session; a fingerprint-triggered request instead
always stops the existing active session and, when the backend search
succeeds with a timestamped result, starts a replacement session that is
active. -/
theorem fetch_dedup_and_fingerprint_replace :
    (∀ (now : ℚ) (p : PlayerState) (search : String → String → Option String)
       (track artist : String) (pos upd : Option ℚ) (eid : String) (js : Bool)
       (dev : DeviceData) (sync : LyricsSynchronizer) (tr : MediaTracker),
      hasRadioPfx p.media_content_id = false →
      dev.lyrics_sync = some sync → sync.active = true →
      sync.media_tracker = some tr →
      tr.current_track = p.media_title → tr.current_artist = p.media_artist →
      fetch_lyrics_for_track now (some p) search track artist pos upd eid false js dev =
        ({ dev with display := ("", "Searching for lyrics...", "") }, false)) ∧
    (∀ (now : ℚ) (p : PlayerState) (search : String → String → Option String)
       (track artist : String) (pos upd : Option ℚ) (eid : String)
       (dev : DeviceData) (sync : LyricsSynchronizer) (txt : String),
      dev.lyrics_sync = some sync → sync.active = true →
      search artist track = some txt → (lyricSplit txt).1 ≠ [] →
      fetch_lyrics_for_track now (some p) search track artist pos upd eid true false dev =
        ({ dev with
            lyrics_sync := some (LyricsSynchronizer.start now (some p) eid
              (lyricSplit txt).1 (lyricSplit txt).2 pos upd true
              (LyricsSynchronizer.stop (sync, ("", "Searching for lyrics...", "")))).1
            last_media_content_id := some p.media_content_id
            display := (LyricsSynchronizer.start now (some p) eid
              (lyricSplit txt).1 (lyricSplit txt).2 pos upd true
              (LyricsSynchronizer.stop (sync, ("", "Searching for lyrics...", "")))).2 },
          false) ∧
      (LyricsSynchronizer.start now (some p) eid
        (lyricSplit txt).1 (lyricSplit txt).2 pos upd true
        (LyricsSynchronizer.stop (sync, ("", "Searching for lyrics...", "")))).1.active = true) := by
  constructor
  · intro now p search track artist pos upd eid js dev sync tr
    intro hradio hsync hact htr htrack hartist
    simp only [fetch_lyrics_for_track]
    rw [if_neg (by rw [hradio]; simp)]
    rw [if_pos (by
      simp only [Bool.not_false, Bool.true_and, hsync, hact, htr, htrack, hartist]
      simp)]
    cases js <;> rfl
  · intro now p search track artist pos upd eid dev sync txt
    intro hsync hact hsearch htl
    have hstop : LyricsSynchronizer.stop (sync, (("" : String), ("Searching for lyrics..." : String), ("" : String))) =
        ({ sync with active := false, media_tracker := none }, ("", "", "")) := by
      simp [LyricsSynchronizer.stop, hact]
    simp only [fetch_lyrics_for_track]
    rw [if_neg (by simp)]
    rw [if_neg (by simp)]
    simp only [hsync, hact]
    rw [searchWithFallback, hsearch]
    simp only [if_neg htl]
    simp only [hstop, Option.getD_some, if_pos rfl]
    constructor
    · rfl
    · exact start_active ..


def demoLyrics : String := "[00:10.00]Hello\n[00:12.00]World"

def demoPlayer : PlayerState :=
  { state := "playing", media_title := "Song", media_artist := "Artist",
    media_content_id := "id1" }

def demoSearch : String → String → Option String :=
  fun a t => if a = "Artist" ∧ t = "Track" then some demoLyrics else none

def demoTracker : MediaTracker :=
  { current_track := "Song", current_artist := "Artist" }

def demoSync : LyricsSynchronizer :=
  { active := true, media_tracker := some demoTracker }

def demoDev : DeviceData := { lyrics_sync := some demoSync }

/-- Witness for C9 on a concrete device, player and backend. -/
theorem fetch_dedup_and_fingerprint_replace_witness :
    fetch_lyrics_for_track 0 (some demoPlayer) demoSearch
        "Track" "Artist" none none "media_player.test" false false demoDev =
      ({ demoDev with display := ("", "Searching for lyrics...", "") }, false) ∧
    (fetch_lyrics_for_track 0 (some demoPlayer) demoSearch
        "Track" "Artist" none none "media_player.test" true false demoDev =
      ({ demoDev with
          lyrics_sync := some (LyricsSynchronizer.start 0 (some demoPlayer) "media_player.test"
            (lyricSplit demoLyrics).1 (lyricSplit demoLyrics).2 none none true
            (LyricsSynchronizer.stop (demoSync, ("", "Searching for lyrics...", "")))).1
          last_media_content_id := some demoPlayer.media_content_id
          display := (LyricsSynchronizer.start 0 (some demoPlayer) "media_player.test"
            (lyricSplit demoLyrics).1 (lyricSplit demoLyrics).2 none none true
            (LyricsSynchronizer.stop (demoSync, ("", "Searching for lyrics...", "")))).2 },
        false) ∧
      (LyricsSynchronizer.start 0 (some demoPlayer) "media_player.test"
        (lyricSplit demoLyrics).1 (lyricSplit demoLyrics).2 none none true
        (LyricsSynchronizer.stop (demoSync, ("", "Searching for lyrics...", "")))).1.active = true) := by
  constructor
  · exact fetch_dedup_and_fingerprint_replace.1 0 demoPlayer demoSearch "Track" "Artist" none none
      "media_player.test" false demoDev demoSync demoTracker
      (by decide) rfl rfl rfl rfl rfl
  · exact fetch_dedup_and_fingerprint_replace.2 0 demoPlayer demoSearch "Track" "Artist" none none
      "media_player.test" demoDev demoSync demoLyrics
      rfl rfl (by simp [demoSearch]) (by with_unfolding_all decide)
